import Mathlib

/-!
Verification development for the governance/fee-settlement service of the
huobi-chain repository (src/services/governance/src/lib.rs, types.rs).

The Rust service is shallowly embedded: u64 values are natural numbers with
overflow made explicit through checked operations cut off at 2^64; the
per-service key/value store and the profit StoreMap are an explicit state
record; panics (Rust expect/unwrap/assert) are modelled by returning none;
cross-service gateway calls (metadata read/write, asset queries and
transfers) are modelled by environment records supplying the collaborator's
responses, and the writes a handler issues are returned as data.
-/

namespace Governance

/-- MILLION constant of lib.rs. -/
def MILLION : Nat := 1000000

/-- HUNDRED constant of lib.rs. -/
def HUNDRED : Nat := 100

/-- One past the largest u64 value: arithmetic overflowing this bound makes
the checked operations of the source return None. -/
def U64LIMIT : Nat := 2 ^ 64

/-- Addresses are opaque identifiers compared only for equality. -/
abbrev Address := Nat

/-- u64::checked_add. -/
def checked_add (a b : Nat) : Option Nat :=
  if a + b < U64LIMIT then some (a + b) else none

/-- u64::checked_mul. -/
def checked_mul (a b : Nat) : Option Nat :=
  if a * b < U64LIMIT then some (a * b) else none

/-- DiscountLevel of types.rs: a profit threshold and the discount ratio
stored for it. Its Ord instance compares by amount only. -/
structure DiscountLevel where
  amount : Nat
  discount_per_million : Nat
deriving DecidableEq, Repr

/-- GovernanceInfo of types.rs, the singleton stored under the "admin" key. -/
structure GovernanceInfo where
  admin : Address
  tx_failure_fee : Nat
  tx_floor_fee : Nat
  profit_deduct_rate : Nat
  tx_fee_discount : List DiscountLevel
  miner_benefit : Nat
deriving DecidableEq, Repr

/-- InitGenesisPayload of types.rs. -/
structure InitGenesisPayload where
  info : GovernanceInfo
  fee_address : Address
  miner_address : Address
deriving DecidableEq, Repr

/-- The consensus metadata fields the governance service reads and writes
through the gateway (the fields of UpdateMetadataPayload in types.rs;
validators are opaque identifiers). -/
structure Metadata where
  verifier_list : List Nat
  interval : Nat
  propose_ratio : Nat
  prevote_ratio : Nat
  precommit_ratio : Nat
  brake_ratio : Nat
deriving DecidableEq, Repr

/-- UpdateMetadataPayload of types.rs: the full metadata record sent back
through the gateway write. -/
structure UpdateMetadataPayload where
  verifier_list : List Nat
  interval : Nat
  propose_ratio : Nat
  prevote_ratio : Nat
  precommit_ratio : Nat
  brake_ratio : Nat
deriving DecidableEq, Repr

/-- From(Metadata) for UpdateMetadataPayload in types.rs: copy the six
fields. -/
def UpdateMetadataPayload.ofMetadata (m : Metadata) : UpdateMetadataPayload :=
  { verifier_list := m.verifier_list
    interval := m.interval
    propose_ratio := m.propose_ratio
    prevote_ratio := m.prevote_ratio
    precommit_ratio := m.precommit_ratio
    brake_ratio := m.brake_ratio }

/-- Asset of types.rs (returned by the asset service). -/
structure Asset where
  id : Nat
  name : String
  symbol : String
  supply : Nat
  precision : Nat
  issuer : Address
deriving DecidableEq, Repr

/-- TransferFromPayload of types.rs: one settlement transfer sent to the
asset service. -/
structure TransferFromPayload where
  asset_id : Nat
  sender : Address
  recipient : Address
  value : Nat
deriving DecidableEq, Repr

/-- ServiceResponse of the protocol crate: a success payload or an error
code with a message; every handler answers with one. -/
inductive ServiceResponse (α : Type) where
  | succeed (data : α)
  | error (code : Nat) (msg : String)
deriving DecidableEq, Repr

/-- The events the service emits, as flat records of the changed fields.
SetAdminEvent and SetGovernInfoEvent carry the topic strings lib.rs writes.
The From impls producing UpdateMetadataEvent, UpdateValidatorsEvent,
UpdateIntervalEvent and UpdateRatioEvent are not among the repository's
files; modelled from the spec: each update emits a distinct event type that
is a flat record of the changed fields (topic strings unspecified, omitted). -/
inductive Event where
  | setAdmin (topic : String) (admin : Address)
  | setGovernInfo (topic : String) (info : GovernanceInfo)
  | updateMetadata (payload : UpdateMetadataPayload)
  | updateValidators (verifier_list : List Nat)
  | updateInterval (interval : Nat)
  | updateRatio (propose_ratio prevote_ratio precommit_ratio brake_ratio : Nat)
deriving DecidableEq, Repr

/-- The profit StoreMap get: first binding of the address, as StoreMap
lookup. -/
def mapGet : List (Address × Nat) → Address → Option Nat
  | [], _ => none
  | (k, v) :: rest, a => if k = a then some v else mapGet rest a

/-- The profit StoreMap insert: overwrite the existing binding or append. -/
def mapInsert : List (Address × Nat) → Address → Nat → List (Address × Nat)
  | [], a, v => [(a, v)]
  | (k, w) :: rest, a, v =>
    if k = a then (a, v) :: rest else (k, w) :: mapInsert rest a v

/-- The governance service's stored state: the three singletons (absent
before genesis) and the profit ledger map. -/
structure GovState where
  govInfo : Option GovernanceInfo
  feeAddress : Option Address
  minerAddress : Option Address
  profits : List (Address × Nat)
deriving DecidableEq, Repr

/-- Vec::sort in init_genesis and set_govern_info: the stable sort by the
DiscountLevel Ord instance, which compares by amount. A stable sort's output
is determined by the input, so insertion sort gives the same list Rust's
stable mergesort does. -/
def sortDiscounts (l : List DiscountLevel) : List DiscountLevel :=
  l.insertionSort (fun a b => a.amount ≤ b.amount)

instance : IsTotal DiscountLevel (fun a b => a.amount ≤ b.amount) :=
  ⟨fun a b => Nat.le_total a.amount b.amount⟩

instance : IsTrans DiscountLevel (fun a b => a.amount ≤ b.amount) :=
  ⟨fun _ _ _ => Nat.le_trans⟩

/-- init_genesis of lib.rs: asserts the profit map is empty (assert! panic
modelled as none), sorts the discount tiers and stores the three
singletons. -/
def init_genesis (s : GovState) (payload : InitGenesisPayload) : Option GovState :=
  if s.profits = [] then
    some { govInfo := some { payload.info with
             tx_fee_discount := sortDiscounts payload.info.tx_fee_discount }
           feeAddress := some payload.fee_address
           minerAddress := some payload.miner_address
           profits := s.profits }
  else none

/-- get_admin_address of lib.rs: expect on the stored GovernanceInfo (none
models the panic when it is absent). -/
def get_admin_address (s : GovState) : Option (ServiceResponse Address) :=
  s.govInfo.map (fun info => .succeed info.admin)

/-- get_govern_info of lib.rs. -/
def get_govern_info (s : GovState) : Option (ServiceResponse GovernanceInfo) :=
  s.govInfo.map (fun info => .succeed info)

/-- get_tx_failure_fee of lib.rs. -/
def get_tx_failure_fee (s : GovState) : Option (ServiceResponse Nat) :=
  s.govInfo.map (fun info => .succeed info.tx_failure_fee)

/-- get_tx_floor_fee of lib.rs. -/
def get_tx_floor_fee (s : GovState) : Option (ServiceResponse Nat) :=
  s.govInfo.map (fun info => .succeed info.tx_floor_fee)

/-- The reverse scan of calc_discount_fee's loop: walking the reversed tier
list, the first tier whose amount is at most the fee fixes the discount. -/
def scanDiscount (origin_fee : Nat) : List DiscountLevel → Option Nat
  | [] => none
  | level :: rest =>
    if level.amount ≤ origin_fee then some level.discount_per_million
    else scanDiscount origin_fee rest

/-- The discount ratio calc_discount_fee selects: the loop over
discount_level.iter().rev(), defaulting to HUNDRED when no tier qualifies. -/
def selectDiscount (origin_fee : Nat) (levels : List DiscountLevel) : Nat :=
  (scanDiscount origin_fee levels.reverse).getD HUNDRED

/-- calc_discount_fee of lib.rs: select the ratio, checked-multiply it into
the fee and divide by HUNDRED; none models the checked_mul overflow. -/
def calc_discount_fee (origin_fee : Nat) (levels : List DiscountLevel) : Option Nat :=
  (checked_mul origin_fee (selectDiscount origin_fee levels)).map (fun res => res / HUNDRED)

/-- calc_tx_fee of lib.rs: checked-multiply profit by profit_deduct_rate,
divide by MILLION, apply the discount, floor the result at tx_floor_fee;
overflow in either multiplication answers error 101 "fee overflow"; the
expect on the stored GovernanceInfo is none when it is absent. -/
def calc_tx_fee (s : GovState) (profit : Nat) : Option (ServiceResponse Nat) :=
  match s.govInfo with
  | none => none
  | some info =>
    match checked_mul profit info.profit_deduct_rate with
    | some tmp =>
      match calc_discount_fee (tmp / MILLION) info.tx_fee_discount with
      | some tmp_fee => some (.succeed (max tmp_fee info.tx_floor_fee))
      | none => some (.error 101 "fee overflow")
    | none => some (.error 101 "fee overflow")

/-- accumulate_profit of lib.rs: read the ledger entry, checked-add the new
profit; overflow answers error 101 "profit overflow" and writes nothing; an
absent entry stores the amount directly. The caller is not checked. -/
def accumulate_profit (s : GovState) (caller : Address) (address : Address)
    (accumulated_profit : Nat) : ServiceResponse Unit × GovState :=
  match mapGet s.profits address with
  | some profit =>
    match checked_add profit accumulated_profit with
    | some profit_sum =>
      (.succeed (), { s with profits := mapInsert s.profits address profit_sum })
    | none => (.error 101 "profit overflow", s)
  | none =>
    (.succeed (), { s with profits := mapInsert s.profits address accumulated_profit })

/-- set_admin of lib.rs: admin-gated; overwrite the admin field and emit
SetAdminEvent. Non-admin callers get ServiceError::NonAuthorized, code 101. -/
def set_admin (s : GovState) (caller : Address) (admin : Address) :
    Option (ServiceResponse Unit × GovState × List Event) :=
  match s.govInfo with
  | none => none
  | some info =>
    if info.admin = caller then
      some (.succeed (), { s with govInfo := some { info with admin := admin } },
        [.setAdmin "Set New Admin" admin])
    else some (.error 101 "NonAuthorized", s, [])

/-- set_govern_info of lib.rs: admin-gated; sort the payload's discount
tiers, store the new GovernanceInfo and emit SetGovernInfoEvent. -/
def set_govern_info (s : GovState) (caller : Address) (inner : GovernanceInfo) :
    Option (ServiceResponse Unit × GovState × List Event) :=
  match s.govInfo with
  | none => none
  | some info =>
    if info.admin = caller then
      let newInfo := { inner with tx_fee_discount := sortDiscounts inner.tx_fee_discount }
      some (.succeed (), { s with govInfo := some newInfo },
        [.setGovernInfo "Set New Govern Info" newInfo])
    else some (.error 101 "NonAuthorized", s, [])

/-- The metadata service as seen through the gateway: the response of the
read call, the outcome of parsing its payload, and the response of the
write call for each payload sent. -/
structure MetaEnv where
  readMeta : ServiceResponse String
  parseMeta : String → Option Metadata
  writeMeta : UpdateMetadataPayload → ServiceResponse String

/-- get_metadata of lib.rs: propagate a gateway read error verbatim; a
payload that fails to parse is ServiceError::JsonParse, code 102. -/
def get_metadata (env : MetaEnv) : Except (Nat × String) Metadata :=
  match env.readMeta with
  | .error c m => .error (c, m)
  | .succeed meta_json =>
    match env.parseMeta meta_json with
    | some meta => .ok meta
    | none => .error (102, "Parsing payload to json failed")

/-- write_metadata of lib.rs: send the payload through the gateway write;
some code/message when the write answers an error, none on success. -/
def write_metadata (env : MetaEnv) (payload : UpdateMetadataPayload) :
    Option (Nat × String) :=
  match env.writeMeta payload with
  | .error c m => some (c, m)
  | .succeed _ => none

/-- update_metadata of lib.rs: admin-gated; write the payload through the
gateway and emit UpdateMetadataEvent. The last component of the result is
the payload sent to the gateway write, none when no write was attempted. -/
def update_metadata (s : GovState) (env : MetaEnv) (caller : Address)
    (payload : UpdateMetadataPayload) :
    Option (ServiceResponse Unit × GovState × List Event × Option UpdateMetadataPayload) :=
  match s.govInfo with
  | none => none
  | some info =>
    if info.admin = caller then
      match write_metadata env payload with
      | some (c, m) => some (.error c m, s, [], some payload)
      | none => some (.succeed (), s, [.updateMetadata payload], some payload)
    else some (.error 101 "NonAuthorized", s, [], none)

/-- update_validators of lib.rs: admin-gated; read the metadata snapshot,
replace only verifier_list, write the full payload back and emit
UpdateValidatorsEvent carrying the payload's list. -/
def update_validators (s : GovState) (env : MetaEnv) (caller : Address)
    (verifier_list : List Nat) :
    Option (ServiceResponse Unit × GovState × List Event × Option UpdateMetadataPayload) :=
  match s.govInfo with
  | none => none
  | some info =>
    if info.admin = caller then
      match get_metadata env with
      | .error (c, m) => some (.error c m, s, [], none)
      | .ok metadata =>
        let payload := UpdateMetadataPayload.ofMetadata
          { metadata with verifier_list := verifier_list }
        match write_metadata env payload with
        | some (c, m) => some (.error c m, s, [], some payload)
        | none => some (.succeed (), s, [.updateValidators verifier_list], some payload)
    else some (.error 101 "NonAuthorized", s, [], none)

/-- update_interval of lib.rs: admin-gated; read the metadata snapshot,
replace only the interval, write the full payload back and emit
UpdateIntervalEvent carrying the new interval. -/
def update_interval (s : GovState) (env : MetaEnv) (caller : Address)
    (interval : Nat) :
    Option (ServiceResponse Unit × GovState × List Event × Option UpdateMetadataPayload) :=
  match s.govInfo with
  | none => none
  | some info =>
    if info.admin = caller then
      match get_metadata env with
      | .error (c, m) => some (.error c m, s, [], none)
      | .ok metadata =>
        let payload := UpdateMetadataPayload.ofMetadata
          { metadata with interval := interval }
        match write_metadata env payload with
        | some (c, m) => some (.error c m, s, [], some payload)
        | none => some (.succeed (), s, [.updateInterval interval], some payload)
    else some (.error 101 "NonAuthorized", s, [], none)

/-- update_ratio of lib.rs: admin-gated; read the metadata snapshot, replace
the four consensus ratios, write the full payload back and emit
UpdateRatioEvent. -/
def update_ratio (s : GovState) (env : MetaEnv) (caller : Address)
    (propose_ratio prevote_ratio precommit_ratio brake_ratio : Nat) :
    Option (ServiceResponse Unit × GovState × List Event × Option UpdateMetadataPayload) :=
  match s.govInfo with
  | none => none
  | some info =>
    if info.admin = caller then
      match get_metadata env with
      | .error (c, m) => some (.error c m, s, [], none)
      | .ok metadata =>
        let payload := UpdateMetadataPayload.ofMetadata
          { metadata with
            propose_ratio := propose_ratio
            prevote_ratio := prevote_ratio
            precommit_ratio := precommit_ratio
            brake_ratio := brake_ratio }
        match write_metadata env payload with
        | some (c, m) => some (.error c m, s, [], some payload)
        | none =>
          some (.succeed (), s,
            [.updateRatio propose_ratio prevote_ratio precommit_ratio brake_ratio],
            some payload)
    else some (.error 101 "NonAuthorized", s, [], none)

/-- The asset service as seen through the gateway during the hooks: the
response of the get_native_asset read and the outcome of parsing it. -/
structure HookEnv where
  nativeAssetResp : ServiceResponse String
  parseAsset : String → Option Asset

/-- get_native_asset of lib.rs: propagate a gateway read error; on success
the payload is parsed with unwrap, so ok none marks the parse-failure
panic. -/
def get_native_asset (env : HookEnv) : Except (Nat × String) (Option Asset) :=
  match env.nativeAssetResp with
  | .error c m => .error (c, m)
  | .succeed asset_json => .ok (env.parseAsset asset_json)

/-- The loop body of tx_hook_after_ over the collected profit entries: a
profit whose multiplication by profit_deduct_rate overflows is skipped
(continue), a discount-multiplication overflow is skipped, and otherwise a
transfer of the discounted fee floored at tx_floor_fee is issued from the
entry's address to the fee address. The product is fed to the discount
lookup without the division by MILLION that calc_tx_fee performs. -/
def settleTransfers (info : GovernanceInfo) (asset_id : Nat) (fee_address : Address) :
    List (Address × Nat) → List TransferFromPayload
  | [] => []
  | (addr, profit) :: rest =>
    let tail := settleTransfers info asset_id fee_address rest
    match checked_mul profit info.profit_deduct_rate with
    | none => tail
    | some tmp_fee =>
      match calc_discount_fee tmp_fee info.tx_fee_discount with
      | none => tail
      | some fee =>
        { asset_id := asset_id, sender := addr, recipient := fee_address,
          value := max fee info.tx_floor_fee } :: tail

/-- tx_hook_after_ of lib.rs: the post-transaction settlement hook. The
expects on GovernanceInfo, the fee address and the native asset are none
(panic) when any is missing; otherwise the hook issues the settlement
transfers (each result ignored) and never touches the profit map or any
other stored state. -/
def tx_hook_after_ (s : GovState) (env : HookEnv) :
    Option (GovState × List TransferFromPayload) :=
  match s.govInfo with
  | none => none
  | some info =>
    match s.feeAddress with
    | none => none
    | some fee_address =>
      match get_native_asset env with
      | .error _ => none
      | .ok none => none
      | .ok (some asset) =>
        some (s, settleTransfers info asset.id fee_address s.profits)

/-- A concrete GovernanceInfo used by the witnesses: floor fee 100, full
profit deduction rate in parts per million, one base tier at amount 0 with
ratio 1000000. -/
def info0 : GovernanceInfo :=
  { admin := 0
    tx_failure_fee := 3
    tx_floor_fee := 100
    profit_deduct_rate := 1000000
    tx_fee_discount := [{ amount := 0, discount_per_million := 1000000 }]
    miner_benefit := 7 }

/-- A concrete post-genesis state holding info0. -/
def state0 : GovState :=
  { govInfo := some info0
    feeAddress := some 10
    minerAddress := some 11
    profits := [] }

/-- The pre-genesis state: no singletons stored, empty ledger. -/
def emptyState : GovState :=
  { govInfo := none, feeAddress := none, minerAddress := none, profits := [] }

/-- A concrete native asset for the hook witnesses. -/
def asset0 : Asset :=
  { id := 42, name := "HT", symbol := "HT", supply := 1000, precision := 8, issuer := 0 }

/-- A hook environment whose asset read succeeds and parses as asset0. -/
def hookEnv0 : HookEnv :=
  { nativeAssetResp := .succeed "asset", parseAsset := fun _ => some asset0 }

/-- A concrete metadata snapshot for the update witnesses. -/
def meta0 : Metadata :=
  { verifier_list := [1, 2, 3]
    interval := 3000
    propose_ratio := 15
    prevote_ratio := 10
    precommit_ratio := 10
    brake_ratio := 7 }

/-- A metadata environment whose read succeeds, parses as meta0, and whose
writes all succeed. -/
def metaEnv0 : MetaEnv :=
  { readMeta := .succeed "meta"
    parseMeta := fun _ => some meta0
    writeMeta := fun _ => .succeed "" }

/-- A state whose ledger entry for address 7 already holds u64::MAX. -/
def stateMax : GovState :=
  { govInfo := some info0
    feeAddress := some 10
    minerAddress := some 11
    profits := [(7, U64LIMIT - 1)] }

/-- A discount table sorted ascending by amount whose ratios are not
monotone: the base tier gives ratio 50, the amount-10 tier ratio 5. -/
def tiersC6 : List DiscountLevel :=
  [{ amount := 0, discount_per_million := 50 },
   { amount := 10, discount_per_million := 5 }]

/-- A discount table sorted ascending by amount with nondecreasing ratios,
all at least HUNDRED. -/
def tiersC6W : List DiscountLevel :=
  [{ amount := 0, discount_per_million := 100 },
   { amount := 10, discount_per_million := 200 }]

/-- A GovernanceInfo with full deduction rate, zero floor and no discount
tiers, under which the hook's settled amount and calc_tx_fee diverge. -/
def infoC10 : GovernanceInfo :=
  { admin := 0
    tx_failure_fee := 0
    tx_floor_fee := 0
    profit_deduct_rate := 1000000
    tx_fee_discount := []
    miner_benefit := 0 }

/-- A state holding infoC10 with one ledger entry: address 8 with profit 1. -/
def stateC10 : GovState :=
  { govInfo := some infoC10
    feeAddress := some 10
    minerAddress := some 11
    profits := [(8, 1)] }

/-- Every discount a successful scan returns is the ratio of some tier of
the scanned list. -/
theorem scanDiscount_mem (v : Nat) (ls : List DiscountLevel) (d : Nat)
    (h : scanDiscount v ls = some d) : ∃ l ∈ ls, l.discount_per_million = d := by
  induction ls with
  | nil => simp [scanDiscount] at h
  | cons l rest ih =>
    unfold scanDiscount at h
    by_cases hla : l.amount ≤ v
    · rw [if_pos hla] at h
      exact ⟨l, by simp, Option.some.inj h⟩
    · rw [if_neg hla] at h
      obtain ⟨x, hx, hd⟩ := ih h
      exact ⟨x, by simp [hx], hd⟩

/-- The defaulted scan result is monotone in the fee when the scanned list
carries nonincreasing ratios that are all at least HUNDRED. -/
theorem scanDiscount_getD_mono (ls : List DiscountLevel) (p1 p2 : Nat)
    (hd : List.Pairwise
      (fun a b => b.discount_per_million ≤ a.discount_per_million) ls)
    (hge : ∀ l ∈ ls, HUNDRED ≤ l.discount_per_million)
    (hp : p1 ≤ p2) :
    (scanDiscount p1 ls).getD HUNDRED ≤ (scanDiscount p2 ls).getD HUNDRED := by
  induction ls with
  | nil => simp [scanDiscount]
  | cons l rest ih =>
    rw [List.pairwise_cons] at hd
    obtain ⟨hhead, htail⟩ := hd
    have hgeTail : ∀ x ∈ rest, HUNDRED ≤ x.discount_per_million :=
      fun x hx => hge x (List.mem_cons_of_mem _ hx)
    by_cases h1 : l.amount ≤ p1
    · have h2 : l.amount ≤ p2 := le_trans h1 hp
      simp [scanDiscount, if_pos h1, if_pos h2]
    · by_cases h2 : l.amount ≤ p2
      · simp only [scanDiscount, if_neg h1, if_pos h2]
        rcases hscan : scanDiscount p1 rest with _ | d
        · simpa [hscan] using hge l (List.mem_cons_self _ _)
        · obtain ⟨x, hx, hxd⟩ := scanDiscount_mem _ _ _ hscan
          simp only [hscan, Option.getD_some]
          exact hxd ▸ hhead x hx
      · simp only [scanDiscount, if_neg h1, if_neg h2]
        exact ih htail hgeTail

/-- A successful run of the settlement hook returns the unchanged state and
the transfer list computed over the collected profit entries. -/
theorem tx_hook_after_spec (s : GovState) (env : HookEnv) (info : GovernanceInfo)
    (fee_address : Address) (asset : Asset)
    (h : s.govInfo = some info) (hfa : s.feeAddress = some fee_address)
    (hna : get_native_asset env = .ok (some asset)) :
    tx_hook_after_ s env =
      some (s, settleTransfers info asset.id fee_address s.profits) := by
  unfold tx_hook_after_
  simp only [h, hfa, hna]

/-- A ledger entry whose deduction product avoids overflow and whose
discount computation succeeds contributes its floored transfer to the
settlement list. -/
theorem mem_settleTransfers (info : GovernanceInfo) (asset_id : Nat)
    (fee_address : Address) (l : List (Address × Nat)) (addr : Address) (p fee : Nat)
    (hmem : (addr, p) ∈ l)
    (hmul : p * info.profit_deduct_rate < U64LIMIT)
    (hfee : calc_discount_fee (p * info.profit_deduct_rate) info.tx_fee_discount = some fee) :
    ({ asset_id := asset_id, sender := addr, recipient := fee_address,
       value := max fee info.tx_floor_fee } : TransferFromPayload) ∈
      settleTransfers info asset_id fee_address l := by
  induction l with
  | nil => simp at hmem
  | cons hd tl ih =>
    obtain ⟨a0, p0⟩ := hd
    rcases List.mem_cons.mp hmem with heq | hmem1
    · injection heq with h1 h2
      subst h1
      subst h2
      have hcm : checked_mul p info.profit_deduct_rate =
          some (p * info.profit_deduct_rate) := by
        unfold checked_mul
        rw [if_pos hmul]
      simp only [settleTransfers, hcm, hfee]
      exact List.mem_cons_self _ _
    · simp only [settleTransfers]
      repeat' split
      all_goals first
        | exact ih hmem1
        | exact List.mem_cons_of_mem _ (ih hmem1)

/-- C1 counterexample: with tx_floor_fee 100, profit_deduct_rate 1000000 and
the single tier (amount 0, discount_per_million 1000000), calc_tx_fee at
profit 50 does not return 100: calc_discount_fee divides the product by
HUNDRED, not MILLION, so the tier ratio 1000000 multiplies the fee by
10000 instead of leaving it unchanged. -/
theorem c1_scenario_counterexample :
    calc_tx_fee state0 50 ≠ some (.succeed 100) := by decide

/-- C1 amended: for every stored GovernanceInfo with tx_floor_fee 100,
profit_deduct_rate 1000000 and discount tiers holding the single level
(amount 0, discount_per_million 1000000), calc_tx_fee at profit 50 returns
a success response whose value is 500000 = (50 * 1000000 / 1000000)
* 1000000 / 100, which already exceeds the floor 100. -/
theorem c1_scenario_amended (s : GovState) (info : GovernanceInfo)
    (h : s.govInfo = some info) (h1 : info.tx_floor_fee = 100)
    (h2 : info.profit_deduct_rate = 1000000)
    (h3 : info.tx_fee_discount = [{ amount := 0, discount_per_million := 1000000 }]) :
    calc_tx_fee s 50 = some (.succeed 500000) := by
  unfold calc_tx_fee
  simp only [h, h1, h2, h3]
  decide

/-- C1 witness: the amended scenario evaluated at the concrete state0. -/
theorem c1_scenario_witness : calc_tx_fee state0 50 = some (.succeed 500000) :=
  c1_scenario_amended state0 info0 rfl rfl rfl rfl

/-- C2 counterexample: accumulate_profit carries no admin check, so a
non-admin caller (address 1, while the stored admin is address 0) gets a
success response, not error 101. -/
theorem c2_nonadmin_counterexample :
    (1 : Address) ≠ info0.admin ∧
    (accumulate_profit state0 1 7 5).1 = ServiceResponse.succeed () := by decide

/-- C2 amended: every admin-gated write handler (set_admin,
set_govern_info, update_metadata, update_validators, update_interval,
update_ratio — all write handlers except accumulate_profit, which carries
no admin check) invoked by a caller different from the stored admin returns
error code 101, leaves the whole stored state unchanged, emits no event and
sends no metadata write through the gateway. -/
theorem c2_nonadmin_amended (s : GovState) (info : GovernanceInfo) (caller : Address)
    (h : s.govInfo = some info) (hc : caller ≠ info.admin) :
    (∀ a, set_admin s caller a = some (.error 101 "NonAuthorized", s, [])) ∧
    (∀ inner, set_govern_info s caller inner = some (.error 101 "NonAuthorized", s, [])) ∧
    (∀ env payload, update_metadata s env caller payload =
      some (.error 101 "NonAuthorized", s, [], none)) ∧
    (∀ env vl, update_validators s env caller vl =
      some (.error 101 "NonAuthorized", s, [], none)) ∧
    (∀ env i, update_interval s env caller i =
      some (.error 101 "NonAuthorized", s, [], none)) ∧
    (∀ env p1 p2 p3 p4, update_ratio s env caller p1 p2 p3 p4 =
      some (.error 101 "NonAuthorized", s, [], none)) := by
  have hne : info.admin ≠ caller := Ne.symm hc
  refine ⟨fun a => ?_, fun inner => ?_, fun env payload => ?_,
    fun env vl => ?_, fun env i => ?_, fun env p1 p2 p3 p4 => ?_⟩
  · unfold set_admin; simp only [h, if_neg hne]
  · unfold set_govern_info; simp only [h, if_neg hne]
  · unfold update_metadata; simp only [h, if_neg hne]
  · unfold update_validators; simp only [h, if_neg hne]
  · unfold update_interval; simp only [h, if_neg hne]
  · unfold update_ratio; simp only [h, if_neg hne]

/-- C2 witness: set_admin invoked on state0 by non-admin caller 1. -/
theorem c2_nonadmin_witness :
    set_admin state0 1 5 = some (.error 101 "NonAuthorized", state0, []) :=
  (c2_nonadmin_amended state0 info0 1 rfl (by decide)).1 5

/-- C3: whenever calc_tx_fee returns a success response, the returned fee
is at least the stored tx_floor_fee. -/
theorem c3_floor_enforced (s : GovState) (info : GovernanceInfo) (profit fee : Nat)
    (h : s.govInfo = some info)
    (hs : calc_tx_fee s profit = some (.succeed fee)) :
    info.tx_floor_fee ≤ fee := by
  unfold calc_tx_fee at hs
  simp only [h] at hs
  rcases hmul : checked_mul profit info.profit_deduct_rate with _ | tmp
  · simp only [hmul] at hs; exact absurd hs (by simp)
  · simp only [hmul] at hs
    rcases hdf : calc_discount_fee (tmp / MILLION) info.tx_fee_discount with _ | tf
    · simp only [hdf] at hs; exact absurd hs (by simp)
    · simp only [hdf, Option.some.injEq, ServiceResponse.succeed.injEq] at hs
      subst hs
      exact le_max_right _ _

/-- C3 witness: the floor bound at state0's success on profit 50. -/
theorem c3_floor_witness : info0.tx_floor_fee ≤ 500000 :=
  c3_floor_enforced state0 info0 50 500000 rfl (by decide)

/-- C4: when the ledger entry for an address holds u64::MAX, accumulating 1
more profit returns error 101 "profit overflow" and the entry still holds
u64::MAX afterwards. -/
theorem c4_profit_overflow (s : GovState) (caller address : Address)
    (h : mapGet s.profits address = some (U64LIMIT - 1)) :
    accumulate_profit s caller address 1 = (.error 101 "profit overflow", s) ∧
    mapGet (accumulate_profit s caller address 1).2.profits address =
      some (U64LIMIT - 1) := by
  have hover : checked_add (U64LIMIT - 1) 1 = none := by
    unfold checked_add U64LIMIT
    norm_num
  have hmain : accumulate_profit s caller address 1 =
      (.error 101 "profit overflow", s) := by
    unfold accumulate_profit
    simp only [h, hover]
  exact ⟨hmain, by rw [hmain]; exact h⟩

/-- C4 witness: the overflow error at the concrete state stateMax. -/
theorem c4_profit_overflow_witness :
    accumulate_profit stateMax 1 7 1 = (.error 101 "profit overflow", stateMax) ∧
    mapGet (accumulate_profit stateMax 1 7 1).2.profits 7 = some (U64LIMIT - 1) :=
  c4_profit_overflow stateMax 1 7 (by decide)

/-- C5: after init_genesis, and after any successful set_govern_info with
an arbitrarily ordered tier list, get_govern_info returns a GovernanceInfo
whose discount tier list is sorted ascending by amount (the DiscountLevel
ordering, total by amount, is re-applied before storing). -/
theorem c5_discount_sorted :
    (∀ s payload s1, init_genesis s payload = some s1 →
      ∃ info, get_govern_info s1 = some (.succeed info) ∧
        List.Pairwise (fun a b => a.amount ≤ b.amount) info.tx_fee_discount) ∧
    (∀ s caller inner s1 evs,
      set_govern_info s caller inner = some (.succeed (), s1, evs) →
      ∃ info, get_govern_info s1 = some (.succeed info) ∧
        List.Pairwise (fun a b => a.amount ≤ b.amount) info.tx_fee_discount) := by
  constructor
  · intro s payload s1 hinit
    unfold init_genesis at hinit
    by_cases hp : s.profits = []
    · rw [if_pos hp] at hinit
      obtain rfl := Option.some.inj hinit
      exact ⟨_, rfl, List.sorted_insertionSort _ _⟩
    · rw [if_neg hp] at hinit
      exact absurd hinit (by simp)
  · intro s caller inner s1 evs hset
    unfold set_govern_info at hset
    rcases hgi : s.govInfo with _ | info
    · simp only [hgi] at hset
      exact absurd hset (by simp)
    · simp only [hgi] at hset
      by_cases hadm : info.admin = caller
      · rw [if_pos hadm] at hset
        simp only [Option.some.injEq, Prod.mk.injEq] at hset
        obtain ⟨-, hs1, -⟩ := hset
        subst hs1
        exact ⟨_, rfl, List.sorted_insertionSort _ _⟩
      · rw [if_neg hadm] at hset
        exact absurd hset (by simp)

/-- C6 counterexample: the table tiersC6 is sorted ascending by amount,
yet the ratio selected for the larger value 15 (ratio 5 of the amount-10
tier) is smaller than the one selected for 5 (ratio 50 of the base tier):
the selected ratio is not monotone for every sorted table. -/
theorem c6_discount_mono_counterexample :
    List.Pairwise (fun a b => a.amount ≤ b.amount) tiersC6 ∧
    (5 : Nat) < 15 ∧
    ¬ selectDiscount 5 tiersC6 ≤ selectDiscount 15 tiersC6 := by decide

/-- C6 amended: for every discount table sorted ascending by amount whose
discount_per_million values are also nondecreasing along the table and all
at least 100 (the default ratio used when no tier qualifies), and all
profit values p1 < p2, the ratio calc_discount_fee selects for p2 is at
least the one it selects for p1. -/
theorem c6_discount_mono_amended (tiers : List DiscountLevel) (p1 p2 : Nat)
    (hsort : List.Pairwise (fun a b => a.amount ≤ b.amount) tiers)
    (hmono : List.Pairwise
      (fun a b => a.discount_per_million ≤ b.discount_per_million) tiers)
    (hge : ∀ l ∈ tiers, HUNDRED ≤ l.discount_per_million)
    (hp : p1 < p2) :
    selectDiscount p1 tiers ≤ selectDiscount p2 tiers := by
  unfold selectDiscount
  apply scanDiscount_getD_mono
  · exact List.pairwise_reverse.mpr hmono
  · intro l hl
    exact hge l (List.mem_reverse.mp hl)
  · exact le_of_lt hp

/-- C6 witness: monotonicity on the concrete table tiersC6W at 5 < 15. -/
theorem c6_discount_mono_witness :
    selectDiscount 5 tiersC6W ≤ selectDiscount 15 tiersC6W :=
  c6_discount_mono_amended tiersC6W 5 15 (by decide) (by decide) (by decide) (by decide)

/-- C7 counterexample: with no stored GovernanceInfo, get_admin_address
hits the expect and panics (modelled as none) instead of returning an
error envelope, so handlers do not terminate with an envelope in every
reachable state. -/
theorem c7_no_panic_counterexample : get_admin_address emptyState = none := by rfl

/-- C7 amended: provided the stored GovernanceInfo is present, every
read and write handler returns a success/error envelope; accumulate_profit
is total by its type alone; the settlement hook additionally needs the fee
address present and a native-asset reply that arrives and deserializes.
When any of these is absent the source panics through expect or unwrap. -/
theorem c7_no_panic_amended (s : GovState) (info : GovernanceInfo)
    (h : s.govInfo = some info) :
    (get_admin_address s).isSome = true ∧
    (get_govern_info s).isSome = true ∧
    (get_tx_failure_fee s).isSome = true ∧
    (get_tx_floor_fee s).isSome = true ∧
    (∀ profit, (calc_tx_fee s profit).isSome = true) ∧
    (∀ caller a, (set_admin s caller a).isSome = true) ∧
    (∀ caller inner, (set_govern_info s caller inner).isSome = true) ∧
    (∀ env caller payload, (update_metadata s env caller payload).isSome = true) ∧
    (∀ env caller vl, (update_validators s env caller vl).isSome = true) ∧
    (∀ env caller i, (update_interval s env caller i).isSome = true) ∧
    (∀ env caller p1 p2 p3 p4, (update_ratio s env caller p1 p2 p3 p4).isSome = true) ∧
    (∀ env fee_address asset, s.feeAddress = some fee_address →
      get_native_asset env = .ok (some asset) →
      (tx_hook_after_ s env).isSome = true) := by
  refine ⟨by simp [get_admin_address, h], by simp [get_govern_info, h],
    by simp [get_tx_failure_fee, h], by simp [get_tx_floor_fee, h],
    fun profit => ?_, fun caller a => ?_, fun caller inner => ?_,
    fun env caller payload => ?_, fun env caller vl => ?_,
    fun env caller i => ?_, fun env caller p1 p2 p3 p4 => ?_,
    fun env fee_address asset hfa hna => ?_⟩
  · unfold calc_tx_fee
    simp only [h]
    repeat' split
    all_goals rfl
  · unfold set_admin
    simp only [h]
    repeat' split
    all_goals rfl
  · unfold set_govern_info
    simp only [h]
    repeat' split
    all_goals rfl
  · unfold update_metadata
    simp only [h]
    repeat' split
    all_goals rfl
  · unfold update_validators
    simp only [h]
    repeat' split
    all_goals rfl
  · unfold update_interval
    simp only [h]
    repeat' split
    all_goals rfl
  · unfold update_ratio
    simp only [h]
    repeat' split
    all_goals rfl
  · unfold tx_hook_after_
    simp only [h, hfa, hna]
    rfl

/-- C7 witness: totality of get_admin_address at the concrete state0. -/
theorem c7_no_panic_witness : (get_admin_address state0).isSome = true :=
  (c7_no_panic_amended state0 info0 rfl).1

/-- C8: a completed run of the settlement hook leaves the profit ledger
unchanged, entry by entry: settlement never clears, removes or decrements
accumulated profit. -/
theorem c8_hook_ledger_frame (s : GovState) (env : HookEnv) (s1 : GovState)
    (transfers : List TransferFromPayload)
    (h : tx_hook_after_ s env = some (s1, transfers)) :
    s1.profits = s.profits ∧
    ∀ a, mapGet s1.profits a = mapGet s.profits a := by
  unfold tx_hook_after_ at h
  rcases hgi : s.govInfo with _ | info
  · simp only [hgi] at h
    exact absurd h (by simp)
  · simp only [hgi] at h
    rcases hfa : s.feeAddress with _ | fee_address
    · simp only [hfa] at h
      exact absurd h (by simp)
    · simp only [hfa] at h
      rcases hna : get_native_asset env with e | oa
      · simp only [hna] at h
        exact absurd h (by simp)
      · simp only [hna] at h
        rcases oa with _ | asset
        · simp at h
        · simp only [Option.some.injEq, Prod.mk.injEq] at h
          obtain ⟨hs1, -⟩ := h
          subst hs1
          exact ⟨rfl, fun a => rfl⟩

/-- C8 witness: the hook run at the concrete state stateC10. -/
theorem c8_hook_ledger_witness :
    stateC10.profits = stateC10.profits ∧
    ∀ a, mapGet stateC10.profits a = mapGet stateC10.profits a :=
  c8_hook_ledger_frame stateC10 hookEnv0 stateC10
    [{ asset_id := 42, sender := 8, recipient := 10, value := 1000000 }] (by decide)

/-- C9: when the admin calls update_interval and the gateway read and
write succeed, the payload written back is exactly the metadata snapshot
just read with only interval replaced (verifier_list and the four ratio
fields preserved), and an UpdateIntervalEvent carrying that interval is
emitted. -/
theorem c9_update_interval_frame (s : GovState) (info : GovernanceInfo)
    (env : MetaEnv) (caller : Address) (metadata : Metadata) (interval : Nat)
    (h : s.govInfo = some info) (hc : caller = info.admin)
    (hr : get_metadata env = .ok metadata)
    (hw : write_metadata env
      (UpdateMetadataPayload.ofMetadata { metadata with interval := interval }) = none) :
    update_interval s env caller interval =
      some (.succeed (), s, [.updateInterval interval],
        some { verifier_list := metadata.verifier_list
               interval := interval
               propose_ratio := metadata.propose_ratio
               prevote_ratio := metadata.prevote_ratio
               precommit_ratio := metadata.precommit_ratio
               brake_ratio := metadata.brake_ratio }) := by
  unfold update_interval
  simp only [h, if_pos hc.symm, hr, hw]
  rfl

/-- C9 witness: the admin (address 0) updates the interval to 5000 on
state0 against the concrete metadata environment metaEnv0. -/
theorem c9_update_interval_witness :
    update_interval state0 metaEnv0 0 5000 =
      some (.succeed (), state0, [.updateInterval 5000],
        some { verifier_list := meta0.verifier_list
               interval := 5000
               propose_ratio := meta0.propose_ratio
               prevote_ratio := meta0.prevote_ratio
               precommit_ratio := meta0.precommit_ratio
               brake_ratio := meta0.brake_ratio }) :=
  c9_update_interval_frame state0 info0 metaEnv0 0 meta0 5000 rfl rfl rfl rfl

/-- C10: in the settlement hook, every ledger entry whose product with
profit_deduct_rate avoids overflow and whose discount computation succeeds
is settled with value max (calc_discount_fee (p * rate)) tx_floor_fee —
the product is not divided by MILLION before the discount lookup — and at
the concrete stateC10 the amount the hook settles for profit 1 is 1000000
while calc_tx_fee returns 1 for the same profit. -/
theorem c10_hook_settlement :
    (∀ (s : GovState) (info : GovernanceInfo) (fee_address : Address) (env : HookEnv)
       (asset : Asset) (s1 : GovState) (transfers : List TransferFromPayload)
       (addr : Address) (p fee : Nat),
      s.govInfo = some info → s.feeAddress = some fee_address →
      get_native_asset env = .ok (some asset) →
      tx_hook_after_ s env = some (s1, transfers) →
      (addr, p) ∈ s.profits →
      p * info.profit_deduct_rate < U64LIMIT →
      calc_discount_fee (p * info.profit_deduct_rate) info.tx_fee_discount = some fee →
      ({ asset_id := asset.id, sender := addr, recipient := fee_address,
         value := max fee info.tx_floor_fee } : TransferFromPayload) ∈ transfers) ∧
    (calc_tx_fee stateC10 1 = some (.succeed 1) ∧
     tx_hook_after_ stateC10 hookEnv0 =
       some (stateC10,
         [{ asset_id := 42, sender := 8, recipient := 10, value := 1000000 }]) ∧
     (1000000 : Nat) ≠ 1) := by
  constructor
  · intro s info fee_address env asset s1 transfers addr p fee h hfa hna hrun hmem hmul hfee
    rw [tx_hook_after_spec s env info fee_address asset h hfa hna] at hrun
    simp only [Option.some.injEq, Prod.mk.injEq] at hrun
    obtain ⟨-, htr⟩ := hrun
    subst htr
    exact mem_settleTransfers info asset.id fee_address s.profits addr p fee hmem hmul hfee
  · exact ⟨by decide, by decide, by decide⟩

end Governance
